import Mathlib

/-
Verification of the CrossWindow window-management library.

The development shallowly embeds the three platform backends
(WindowManagerWindows, WindowManagerLinux, WindowManagerMacOS) over explicit
"world" structures: one function per native call, describing what the OS
answers for each handle during one snapshot.  Backend instance state
(m_initialized, m_lastError, the X11 display connection) is threaded
explicitly.  Handles are modelled as Nat (pointer values / X11 window ids,
0 = null).  std::string fields are modelled as byte lists because the code
lowercases them byte-wise with ::tolower.
-/

set_option autoImplicit false
set_option linter.unusedVariables false

namespace CrossWindow

/-- Byte string, the contents of a std::string. -/
abbrev Str := List Nat

/-- ASCII tolower as applied byte-wise by std::transform with ::tolower. -/
def asciiLower (c : Nat) : Nat := if 65 ≤ c ∧ c ≤ 90 then c + 32 else c

/-- Byte-wise lowering of a whole string. -/
def lowerStr (s : Str) : Str := s.map asciiLower

/-- Does the first string occur as an initial segment of the second. -/
def strStarts : Str → Str → Bool
  | [], _ => true
  | _ :: _, [] => false
  | p :: ps, c :: cs => p == c && strStarts ps cs

/-- Models std::string::find(pat) != npos: pat occurs as a contiguous substring
(the empty pattern always occurs, as find returns 0 for it). -/
def strFindSub (pat : Str) : Str → Bool
  | [] => strStarts pat []
  | c :: cs => strStarts pat (c :: cs) || strFindSub pat cs

/-- WindowManager*::ToLowerCompare (identical in all three backends): lower both
sides byte-wise, then substring search of the pattern inside the string. -/
def toLowerCompare (s pat : Str) : Bool := strFindSub (lowerStr pat) (lowerStr s)

/-- The per-window title test FindWindowsByTitle applies, for both values of
caseSensitive. -/
def titleMatches (pat : Str) (caseSensitive : Bool) (title : Str) : Bool :=
  if caseSensitive then strFindSub pat title else toLowerCompare title pat

/-- ErrorCode of CrossWindow.h. -/
inductive ErrorCode where
  | Success
  | InvalidHandle
  | AccessDenied
  | WindowNotFound
  | OperationFailed
  | NotSupported
  | NotInitialized
deriving DecidableEq

/-- Rect of CrossWindow.h; all fields default to 0. -/
structure Rect where
  x : Int := 0
  y : Int := 0
  width : Int := 0
  height : Int := 0
deriving DecidableEq

instance : Inhabited Rect := ⟨{}⟩

/-- WindowState bit values (uint32 bit set; Normal is the empty set). -/
def stateNormal : Nat := 0

def stateMinimized : Nat := 1

def stateMaximized : Nat := 2

def stateFullscreen : Nat := 4

def stateHidden : Nat := 8

def stateFocused : Nat := 16

def stateAlwaysOnTop : Nat := 32

/-- WindowState operator|. -/
def stOr (a b : Nat) : Nat := a.lor b

/-- One step of the if/operator| chains that accumulate state bits. -/
def addFlag (st : Nat) (cond : Bool) (flag : Nat) : Nat :=
  if cond then stOr st flag else st

/-- WindowInfo of CrossWindow.h; defaults are the C++ member initializers. -/
structure WindowInfo where
  handle : Nat := 0
  title : Str := []
  className : Str := []
  rect : Rect := {}
  state : Nat := stateNormal
  processId : Nat := 0
  processName : Str := []
  isVisible : Bool := false
deriving DecidableEq

instance : Inhabited WindowInfo := ⟨{}⟩

/-- Result of CrossWindow.h: value, error, advisory message; ok iff Success. -/
structure Result (α : Type) where
  value : α
  error : ErrorCode := ErrorCode.Success
  errorMessage : String := ""
deriving DecidableEq

/-- Result::ok. -/
def Result.ok {α : Type} (r : Result α) : Bool := r.error == ErrorCode.Success

/-- A failed Result; the value is left default-constructed as in the source. -/
def errResult {α : Type} [Inhabited α] (e : ErrorCode) (m : String) : Result α :=
  ⟨default, e, m⟩

/-- Truncation of a nonnegative rational, as a C integral cast (static_cast to
BYTE / unsigned long) performs; both uses apply it after clamping into [0, 1]
and scaling, hence to a nonnegative value, where C truncation is the floor. -/
def ratTrunc (q : ℚ) : Nat := (⌊q⌋).toNat

/-- The clamp both SetWindowOpacity implementations apply before use:
max(0.0f, min(1.0f, opacity)). -/
def clamp01 (q : ℚ) : ℚ := max 0 (min 1 q)

/-- The cooperative-cancellation visit trace: the windows a visitor sees when a
walk over the list stops right after the first refusal. -/
def visitTrace {α : Type} (f : α → Bool) : List α → List α
  | [] => []
  | x :: xs => if f x then x :: visitTrace f xs else [x]

/-! ## Win32 backend (WindowManagerWindows) -/

/-- The Win32 native surface consulted by WindowManagerWindows, one field per
native call.  visibleRaw and the other per-handle predicates describe the OS
answer for a valid handle; IsWindowVisible on an invalid handle returns FALSE,
which winNativeVisible encodes. -/
structure WinWorld where
  isWindow : Nat → Bool
  visibleRaw : Nat → Bool
  owner : Nat → Option Nat
  textLen : Nat → Nat
  titleText : Nat → Str
  classNameOf : Nat → Str
  pidOf : Nat → Nat
  procNameOf : Nat → Str
  rectQuery : Nat → Option Rect
  iconic : Nat → Bool
  zoomed : Nat → Bool
  topmostEx : Nat → Bool
  foreground : Nat
  enumList : List Nat
  canTerminate : Nat → Bool
  wideSizeOf : Str → Int

/-- Instance state of WindowManagerWindows: m_initialized and m_lastError. -/
structure WinState where
  initialized : Bool := false
  lastError : String := ""
deriving DecidableEq

/-- Win32 ::IsWindowVisible: nonzero only for a valid handle whose window is
visible. -/
def winNativeVisible (ww : WinWorld) (h : Nat) : Bool :=
  ww.isWindow h && ww.visibleRaw h

/-- WindowManagerWindows::GetWindowTitleInternal (empty when the length query
answers 0; the UTF-8 conversion result is the world's titleText). -/
def winTitleInternal (ww : WinWorld) (h : Nat) : Str :=
  if ww.textLen h = 0 then [] else ww.titleText h

/-- WindowManagerWindows::Initialize. -/
def winInitialize (ws : WinState) : Bool × WinState :=
  (true, { ws with initialized := true })

/-- WindowManagerWindows::IsInitialized. -/
def winIsInitialized (ws : WinState) : Bool := ws.initialized

/-- WindowManagerWindows::Shutdown. -/
def winShutdown (ws : WinState) : WinState := { ws with initialized := false }

/-- WindowManagerWindows::GetWindowInfo. -/
def winGetWindowInfo (ww : WinWorld) (ws : WinState) (h : Nat) : Result WindowInfo :=
  if ws.initialized = false then
    errResult ErrorCode.NotInitialized "WindowManager not initialized"
  else if ww.isWindow h = false then
    errResult ErrorCode.InvalidHandle "Invalid window handle"
  else
    { value :=
        { handle := h
          title := winTitleInternal ww h
          className := ww.classNameOf h
          rect := (ww.rectQuery h).getD {}
          state :=
            addFlag
              (addFlag
                (addFlag
                  (addFlag (addFlag stateNormal (ww.iconic h) stateMinimized)
                    (ww.zoomed h) stateMaximized)
                  (!winNativeVisible ww h) stateHidden)
                (ww.topmostEx h) stateAlwaysOnTop)
              (ww.foreground == h) stateFocused
          processId := ww.pidOf h
          processName := ww.procNameOf (ww.pidOf h)
          isVisible := winNativeVisible ww h }
      error := ErrorCode.Success
      errorMessage := "" }

/-- The skip conditions of WindowManagerWindows::EnumWindowsProc: keep visible,
unowned windows with a nonzero title length. -/
def winEnumKeep (ww : WinWorld) (h : Nat) : Bool :=
  winNativeVisible ww h && (ww.owner h).isNone && (ww.textLen h != 0)

/-- The ::EnumWindows walk as run by GetAllWindows (null callback): collect every
kept window whose GetWindowInfo succeeds. -/
def winCollect (ww : WinWorld) (ws : WinState) : List Nat → List WindowInfo
  | [] => []
  | h :: rest =>
    if winEnumKeep ww h then
      if (winGetWindowInfo ww ws h).error = ErrorCode.Success then
        (winGetWindowInfo ww ws h).value :: winCollect ww ws rest
      else winCollect ww ws rest
    else winCollect ww ws rest

/-- WindowManagerWindows::GetAllWindows (the uninitialized branch of the source
also stores an advisory message in m_lastError; the last-error slot is analysed
only where a claim depends on it). -/
def winGetAllWindows (ww : WinWorld) (ws : WinState) : List WindowInfo :=
  if ws.initialized = false then [] else winCollect ww ws ww.enumList

/-- The ::EnumWindows walk as run by EnumerateWindows (null window list): the
sequence of windows handed to the callback, the walk stopping right after the
first refusal. -/
def winEnumGo (ww : WinWorld) (ws : WinState) (f : WindowInfo → Bool) :
    List Nat → List WindowInfo
  | [] => []
  | h :: rest =>
    if winEnumKeep ww h then
      if (winGetWindowInfo ww ws h).error = ErrorCode.Success then
        if f (winGetWindowInfo ww ws h).value then
          (winGetWindowInfo ww ws h).value :: winEnumGo ww ws f rest
        else [(winGetWindowInfo ww ws h).value]
      else winEnumGo ww ws f rest
    else winEnumGo ww ws f rest

/-- WindowManagerWindows::EnumerateWindows, observed as its visit trace. -/
def winEnumerateWindows (ww : WinWorld) (ws : WinState) (f : WindowInfo → Bool) :
    List WindowInfo :=
  if ws.initialized = false then [] else winEnumGo ww ws f ww.enumList

/-- WindowManagerWindows::FindWindowsByTitle. -/
def winFindWindowsByTitle (ww : WinWorld) (ws : WinState) (pat : Str)
    (caseSensitive : Bool) : List WindowInfo :=
  if ws.initialized = false then []
  else (winGetAllWindows ww ws).filter fun info =>
    titleMatches pat caseSensitive info.title

/-- WindowManagerWindows::FindWindowsByProcess. -/
def winFindWindowsByProcess (ww : WinWorld) (ws : WinState) (pname : Str) :
    List WindowInfo :=
  if ws.initialized = false then []
  else (winGetAllWindows ww ws).filter fun info =>
    toLowerCompare info.processName pname

/-- WindowManagerWindows::GetWindowTitle. -/
def winGetWindowTitle (ww : WinWorld) (ws : WinState) (h : Nat) : Result Str :=
  if ws.initialized = false then
    errResult ErrorCode.NotInitialized "WindowManager not initialized"
  else if ww.isWindow h = false then
    errResult ErrorCode.InvalidHandle "Invalid window handle"
  else ⟨winTitleInternal ww h, ErrorCode.Success, ""⟩

/-- WindowManagerWindows::GetWindowRect. -/
def winGetWindowRectOp (ww : WinWorld) (ws : WinState) (h : Nat) : Result Rect :=
  if ws.initialized = false then
    errResult ErrorCode.NotInitialized "WindowManager not initialized"
  else if ww.isWindow h = false then
    errResult ErrorCode.InvalidHandle "Invalid window handle"
  else
    match ww.rectQuery h with
    | some r => ⟨r, ErrorCode.Success, ""⟩
    | none => ⟨{}, ErrorCode.OperationFailed, "Failed to get window rect"⟩

/-- WindowManagerWindows::GetWindowState. -/
def winGetWindowState (ww : WinWorld) (ws : WinState) (h : Nat) : Result Nat :=
  if ws.initialized = false then
    errResult ErrorCode.NotInitialized "WindowManager not initialized"
  else if ww.isWindow h = false then
    errResult ErrorCode.InvalidHandle "Invalid window handle"
  else
    ⟨addFlag
        (addFlag
          (addFlag
            (addFlag (addFlag stateNormal (ww.iconic h) stateMinimized)
              (ww.zoomed h) stateMaximized)
            (!winNativeVisible ww h) stateHidden)
          (ww.topmostEx h) stateAlwaysOnTop)
        (ww.foreground == h) stateFocused,
      ErrorCode.Success, ""⟩

/-- WindowManagerWindows::GetWindowProcessId. -/
def winGetWindowProcessId (ww : WinWorld) (ws : WinState) (h : Nat) : Result Nat :=
  if ws.initialized = false then
    errResult ErrorCode.NotInitialized "WindowManager not initialized"
  else if ww.isWindow h = false then
    errResult ErrorCode.InvalidHandle "Invalid window handle"
  else ⟨ww.pidOf h, ErrorCode.Success, ""⟩

/-- WindowManagerWindows::IsWindowVisible. -/
def winIsWindowVisible (ww : WinWorld) (ws : WinState) (h : Nat) : Bool :=
  if ws.initialized = false then false else winNativeVisible ww h

/-- WindowManagerWindows::IsValidWindow. -/
def winIsValidWindow (ww : WinWorld) (ws : WinState) (h : Nat) : Bool :=
  if ws.initialized = false then false else ww.isWindow h

/-- WindowManagerWindows::GetFocusedWindow (0 models the null HWND). -/
def winGetFocusedWindow (ww : WinWorld) (ws : WinState) : Nat :=
  if ws.initialized = false then 0 else ww.foreground

/-- WindowManagerWindows::GetFocusedWindowInfo. -/
def winGetFocusedWindowInfo (ww : WinWorld) (ws : WinState) : Result WindowInfo :=
  if winGetFocusedWindow ww ws = 0 then
    errResult ErrorCode.WindowNotFound "No focused window found"
  else winGetWindowInfo ww ws (winGetFocusedWindow ww ws)

/-- WindowManagerWindows::CloseWindow. -/
def winCloseWindow (ww : WinWorld) (ws : WinState) (h : Nat) : ErrorCode :=
  if ws.initialized = false then ErrorCode.NotInitialized
  else if ww.isWindow h = false then ErrorCode.InvalidHandle
  else ErrorCode.Success

/-- WindowManagerWindows::ForceCloseWindow. -/
def winForceCloseWindow (ww : WinWorld) (ws : WinState) (h : Nat) : ErrorCode :=
  if ws.initialized = false then ErrorCode.NotInitialized
  else if ww.isWindow h = false then ErrorCode.InvalidHandle
  else if ww.canTerminate (ww.pidOf h) then ErrorCode.Success
  else ErrorCode.AccessDenied

/-- WindowManagerWindows::MinimizeWindow. -/
def winMinimizeWindow (ww : WinWorld) (ws : WinState) (h : Nat) : ErrorCode :=
  if ws.initialized = false then ErrorCode.NotInitialized
  else if ww.isWindow h = false then ErrorCode.InvalidHandle
  else ErrorCode.Success

/-- WindowManagerWindows::MaximizeWindow. -/
def winMaximizeWindow (ww : WinWorld) (ws : WinState) (h : Nat) : ErrorCode :=
  if ws.initialized = false then ErrorCode.NotInitialized
  else if ww.isWindow h = false then ErrorCode.InvalidHandle
  else ErrorCode.Success

/-- WindowManagerWindows::RestoreWindow. -/
def winRestoreWindow (ww : WinWorld) (ws : WinState) (h : Nat) : ErrorCode :=
  if ws.initialized = false then ErrorCode.NotInitialized
  else if ww.isWindow h = false then ErrorCode.InvalidHandle
  else ErrorCode.Success

/-- WindowManagerWindows::ShowWindow. -/
def winShowWindow (ww : WinWorld) (ws : WinState) (h : Nat) : ErrorCode :=
  if ws.initialized = false then ErrorCode.NotInitialized
  else if ww.isWindow h = false then ErrorCode.InvalidHandle
  else ErrorCode.Success

/-- WindowManagerWindows::HideWindow. -/
def winHideWindow (ww : WinWorld) (ws : WinState) (h : Nat) : ErrorCode :=
  if ws.initialized = false then ErrorCode.NotInitialized
  else if ww.isWindow h = false then ErrorCode.InvalidHandle
  else ErrorCode.Success

/-- WindowManagerWindows::FocusWindow. -/
def winFocusWindow (ww : WinWorld) (ws : WinState) (h : Nat) : ErrorCode :=
  if ws.initialized = false then ErrorCode.NotInitialized
  else if ww.isWindow h = false then ErrorCode.InvalidHandle
  else ErrorCode.Success

/-- WindowManagerWindows::SetAlwaysOnTop. -/
def winSetAlwaysOnTop (ww : WinWorld) (ws : WinState) (h : Nat) (topmost : Bool) :
    ErrorCode :=
  if ws.initialized = false then ErrorCode.NotInitialized
  else if ww.isWindow h = false then ErrorCode.InvalidHandle
  else ErrorCode.Success

/-- WindowManagerWindows::SetWindowRect. -/
def winSetWindowRect (ww : WinWorld) (ws : WinState) (h : Nat) (r : Rect) :
    ErrorCode :=
  if ws.initialized = false then ErrorCode.NotInitialized
  else if ww.isWindow h = false then ErrorCode.InvalidHandle
  else ErrorCode.Success

/-- WindowManagerWindows::MoveWindow. -/
def winMoveWindow (ww : WinWorld) (ws : WinState) (h : Nat) (x y : Int) :
    ErrorCode :=
  if ws.initialized = false then ErrorCode.NotInitialized
  else if ww.isWindow h = false then ErrorCode.InvalidHandle
  else ErrorCode.Success

/-- WindowManagerWindows::ResizeWindow. -/
def winResizeWindow (ww : WinWorld) (ws : WinState) (h : Nat) (width height : Int) :
    ErrorCode :=
  if ws.initialized = false then ErrorCode.NotInitialized
  else if ww.isWindow h = false then ErrorCode.InvalidHandle
  else ErrorCode.Success

/-- WindowManagerWindows::SetWindowTitle (the MultiByteToWideChar size probe can
fail, yielding OperationFailed). -/
def winSetWindowTitle (ww : WinWorld) (ws : WinState) (h : Nat) (title : Str) :
    ErrorCode :=
  if ws.initialized = false then ErrorCode.NotInitialized
  else if ww.isWindow h = false then ErrorCode.InvalidHandle
  else if ww.wideSizeOf title ≤ 0 then ErrorCode.OperationFailed
  else ErrorCode.Success

/-- WindowManagerWindows::SetWindowOpacity; the second component is the 8-bit
alpha handed to SetLayeredWindowAttributes when the native call is reached:
static_cast to BYTE of (clamped opacity * 255). -/
def winSetWindowOpacity (ww : WinWorld) (ws : WinState) (h : Nat) (opacity : ℚ) :
    ErrorCode × Option Nat :=
  if ws.initialized = false then (ErrorCode.NotInitialized, none)
  else if ww.isWindow h = false then (ErrorCode.InvalidHandle, none)
  else (ErrorCode.Success, some (ratTrunc (clamp01 opacity * 255)))

/-! ## X11 backend (WindowManagerLinux) -/

/-- One XGetWindowAttributes answer, with the absolute position obtained by the
accompanying XTranslateCoordinates call folded in. -/
structure XAttrs where
  absX : Int := 0
  absY : Int := 0
  width : Int := 0
  height : Int := 0
  viewable : Bool := false
deriving DecidableEq

/-- The X11 native surface consulted by WindowManagerLinux during one snapshot.
probeOk is the XGetWindowAttributes success seen by the validity probe in
IsValidWindow (with the scoped error handler installed); attrs is the answer of
the separate XGetWindowAttributes call later operations issue, kept independent
to model the non-atomic snapshot (the window may die between the two). -/
structure X11World where
  displayAvailable : Bool
  clientList : List Nat
  probeOk : Nat → Bool
  attrs : Nat → Option XAttrs
  netWmName : Nat → Option Str
  wmName : Nat → Option Str
  classHint : Nat → Option Str
  pidProp : Nat → Option Nat
  procNameOf : Nat → Str
  hasHidden : Nat → Bool
  hasMaxVert : Nat → Bool
  hasMaxHorz : Nat → Bool
  hasFullscreen : Nat → Bool
  hasAbove : Nat → Bool
  activeWindow : Nat

/-- Instance state of WindowManagerLinux: m_initialized, the display connection,
the cached atoms, and m_lastError. -/
structure LinuxState where
  initialized : Bool := false
  displayOpen : Bool := false
  atomsCached : Bool := false
  lastError : String := ""
deriving DecidableEq

/-- WindowManagerLinux::Initialize: early return when already initialized, else
open the display (failure reported with false), cache atoms, mark initialized. -/
def linuxInitialize (lw : X11World) (ls : LinuxState) : Bool × LinuxState :=
  if ls.initialized then (true, ls)
  else if lw.displayAvailable = false then
    (false, { ls with lastError := "Failed to open X11 display" })
  else (true, { ls with initialized := true, displayOpen := true, atomsCached := true })

/-- WindowManagerLinux::IsInitialized. -/
def linuxIsInitialized (ls : LinuxState) : Bool := ls.initialized

/-- WindowManagerLinux::Shutdown. -/
def linuxShutdown (ls : LinuxState) : LinuxState :=
  { ls with displayOpen := false, initialized := false }

/-- WindowManagerLinux::GetWindowTitleInternal: _NET_WM_NAME when present and
non-empty, else the WM_NAME fallback (empty when both are absent). -/
def linuxTitleInternal (lw : X11World) (h : Nat) : Str :=
  match lw.netWmName h with
  | some t => if t.isEmpty then (lw.wmName h).getD [] else t
  | none => (lw.wmName h).getD []

/-- WindowManagerLinux::GetWindowClassInternal. -/
def linuxClassInternal (lw : X11World) (h : Nat) : Str :=
  (lw.classHint h).getD []

/-- WindowManagerLinux::GetWindowPidInternal (0 when the property is absent). -/
def linuxPidInternal (lw : X11World) (h : Nat) : Nat :=
  (lw.pidProp h).getD 0

/-- WindowManagerLinux::GetProcessNameFromPid (empty for pid 0 or on failure). -/
def linuxProcessName (lw : X11World) (pid : Nat) : Str :=
  if pid = 0 then [] else lw.procNameOf pid

/-- WindowManagerLinux::IsValidWindow: false when uninitialized, else the
error-trapped XGetWindowAttributes probe. -/
def linuxIsValidWindow (lw : X11World) (ls : LinuxState) (h : Nat) : Bool :=
  if ls.initialized = false then false else lw.probeOk h

/-- WindowManagerLinux::GetFocusedWindow: the root _NET_ACTIVE_WINDOW property
(0 when unset or uninitialized). -/
def linuxGetFocusedWindow (lw : X11World) (ls : LinuxState) : Nat :=
  if ls.initialized = false then 0 else lw.activeWindow

/-- WindowManagerLinux::GetWindowInfo.  When the geometry sub-query fails the
rect fields and isVisible simply keep their defaults and assembly continues to
a Success result. -/
def linuxGetWindowInfo (lw : X11World) (ls : LinuxState) (h : Nat) :
    Result WindowInfo :=
  if ls.initialized = false then
    errResult ErrorCode.NotInitialized "WindowManager not initialized"
  else if linuxIsValidWindow lw ls h = false then
    errResult ErrorCode.InvalidHandle "Invalid window handle"
  else
    { value :=
        { handle := h
          title := linuxTitleInternal lw h
          className := linuxClassInternal lw h
          rect :=
            match lw.attrs h with
            | some a => { x := a.absX, y := a.absY, width := a.width, height := a.height }
            | none => {}
          state :=
            addFlag
              (addFlag
                (addFlag
                  (addFlag (addFlag stateNormal (lw.hasHidden h) stateMinimized)
                    (lw.hasMaxVert h && lw.hasMaxHorz h) stateMaximized)
                  (lw.hasFullscreen h) stateFullscreen)
                (lw.hasAbove h) stateAlwaysOnTop)
              (linuxGetFocusedWindow lw ls == h) stateFocused
          processId := linuxPidInternal lw h
          processName := linuxProcessName lw (linuxPidInternal lw h)
          isVisible :=
            match lw.attrs h with
            | some a => a.viewable
            | none => false }
      error := ErrorCode.Success
      errorMessage := "" }

/-- The client-list walk of WindowManagerLinux::GetAllWindows: collect every
window whose GetWindowInfo succeeds. -/
def linuxCollect (lw : X11World) (ls : LinuxState) : List Nat → List WindowInfo
  | [] => []
  | h :: rest =>
    if (linuxGetWindowInfo lw ls h).error = ErrorCode.Success then
      (linuxGetWindowInfo lw ls h).value :: linuxCollect lw ls rest
    else linuxCollect lw ls rest

/-- WindowManagerLinux::GetAllWindows. -/
def linuxGetAllWindows (lw : X11World) (ls : LinuxState) : List WindowInfo :=
  if ls.initialized = false then [] else linuxCollect lw ls lw.clientList

/-- The client-list walk of WindowManagerLinux::EnumerateWindows: the sequence
of windows handed to the callback, the walk stopping right after the first
refusal. -/
def linuxEnumGo (lw : X11World) (ls : LinuxState) (f : WindowInfo → Bool) :
    List Nat → List WindowInfo
  | [] => []
  | h :: rest =>
    if (linuxGetWindowInfo lw ls h).error = ErrorCode.Success then
      if f (linuxGetWindowInfo lw ls h).value then
        (linuxGetWindowInfo lw ls h).value :: linuxEnumGo lw ls f rest
      else [(linuxGetWindowInfo lw ls h).value]
    else linuxEnumGo lw ls f rest

/-- WindowManagerLinux::EnumerateWindows, observed as its visit trace. -/
def linuxEnumerateWindows (lw : X11World) (ls : LinuxState) (f : WindowInfo → Bool) :
    List WindowInfo :=
  if ls.initialized = false then [] else linuxEnumGo lw ls f lw.clientList

/-- The client-list walk of WindowManagerLinux::FindWindowsByTitle: match the
directly queried title first, then collect the window when GetWindowInfo
succeeds. -/
def linuxFindGo (lw : X11World) (ls : LinuxState) (pat : Str) (caseSensitive : Bool) :
    List Nat → List WindowInfo
  | [] => []
  | h :: rest =>
    if titleMatches pat caseSensitive (linuxTitleInternal lw h) then
      if (linuxGetWindowInfo lw ls h).error = ErrorCode.Success then
        (linuxGetWindowInfo lw ls h).value :: linuxFindGo lw ls pat caseSensitive rest
      else linuxFindGo lw ls pat caseSensitive rest
    else linuxFindGo lw ls pat caseSensitive rest

/-- WindowManagerLinux::FindWindowsByTitle. -/
def linuxFindWindowsByTitle (lw : X11World) (ls : LinuxState) (pat : Str)
    (caseSensitive : Bool) : List WindowInfo :=
  if ls.initialized = false then [] else linuxFindGo lw ls pat caseSensitive lw.clientList

/-- WindowManagerLinux::GetWindowTitle. -/
def linuxGetWindowTitle (lw : X11World) (ls : LinuxState) (h : Nat) : Result Str :=
  if ls.initialized = false then
    errResult ErrorCode.NotInitialized "WindowManager not initialized"
  else if linuxIsValidWindow lw ls h = false then
    errResult ErrorCode.InvalidHandle "Invalid window handle"
  else ⟨linuxTitleInternal lw h, ErrorCode.Success, ""⟩

/-- WindowManagerLinux::GetWindowRect. -/
def linuxGetWindowRect (lw : X11World) (ls : LinuxState) (h : Nat) : Result Rect :=
  if ls.initialized = false then
    errResult ErrorCode.NotInitialized "WindowManager not initialized"
  else if linuxIsValidWindow lw ls h = false then
    errResult ErrorCode.InvalidHandle "Invalid window handle"
  else
    match lw.attrs h with
    | some a => ⟨{ x := a.absX, y := a.absY, width := a.width, height := a.height },
        ErrorCode.Success, ""⟩
    | none => ⟨{}, ErrorCode.OperationFailed, "Failed to get window attributes"⟩

/-- WindowManagerLinux::GetWindowState. -/
def linuxGetWindowState (lw : X11World) (ls : LinuxState) (h : Nat) : Result Nat :=
  if ls.initialized = false then
    errResult ErrorCode.NotInitialized "WindowManager not initialized"
  else if linuxIsValidWindow lw ls h = false then
    errResult ErrorCode.InvalidHandle "Invalid window handle"
  else
    ⟨addFlag
        (addFlag
          (addFlag
            (addFlag (addFlag stateNormal (lw.hasHidden h) stateMinimized)
              (lw.hasMaxVert h && lw.hasMaxHorz h) stateMaximized)
            (lw.hasFullscreen h) stateFullscreen)
          (lw.hasAbove h) stateAlwaysOnTop)
        (linuxGetFocusedWindow lw ls == h) stateFocused,
      ErrorCode.Success, ""⟩

/-- WindowManagerLinux::GetWindowProcessId. -/
def linuxGetWindowProcessId (lw : X11World) (ls : LinuxState) (h : Nat) : Result Nat :=
  if ls.initialized = false then
    errResult ErrorCode.NotInitialized "WindowManager not initialized"
  else if linuxIsValidWindow lw ls h = false then
    errResult ErrorCode.InvalidHandle "Invalid window handle"
  else ⟨linuxPidInternal lw h, ErrorCode.Success, ""⟩

/-- WindowManagerLinux::IsWindowVisible. -/
def linuxIsWindowVisible (lw : X11World) (ls : LinuxState) (h : Nat) : Bool :=
  if ls.initialized = false then false
  else if linuxIsValidWindow lw ls h = false then false
  else
    match lw.attrs h with
    | some a => a.viewable
    | none => false

/-- WindowManagerLinux::GetFocusedWindowInfo. -/
def linuxGetFocusedWindowInfo (lw : X11World) (ls : LinuxState) : Result WindowInfo :=
  if linuxGetFocusedWindow lw ls = 0 then
    errResult ErrorCode.WindowNotFound "No focused window found"
  else linuxGetWindowInfo lw ls (linuxGetFocusedWindow lw ls)

/-- WindowManagerLinux::CloseWindow. -/
def linuxCloseWindow (lw : X11World) (ls : LinuxState) (h : Nat) : ErrorCode :=
  if ls.initialized = false then ErrorCode.NotInitialized
  else if linuxIsValidWindow lw ls h = false then ErrorCode.InvalidHandle
  else ErrorCode.Success

/-- WindowManagerLinux::ForceCloseWindow. -/
def linuxForceCloseWindow (lw : X11World) (ls : LinuxState) (h : Nat) : ErrorCode :=
  if ls.initialized = false then ErrorCode.NotInitialized
  else if linuxIsValidWindow lw ls h = false then ErrorCode.InvalidHandle
  else ErrorCode.Success

/-- WindowManagerLinux::MinimizeWindow. -/
def linuxMinimizeWindow (lw : X11World) (ls : LinuxState) (h : Nat) : ErrorCode :=
  if ls.initialized = false then ErrorCode.NotInitialized
  else if linuxIsValidWindow lw ls h = false then ErrorCode.InvalidHandle
  else ErrorCode.Success

/-- WindowManagerLinux::MaximizeWindow. -/
def linuxMaximizeWindow (lw : X11World) (ls : LinuxState) (h : Nat) : ErrorCode :=
  if ls.initialized = false then ErrorCode.NotInitialized
  else if linuxIsValidWindow lw ls h = false then ErrorCode.InvalidHandle
  else ErrorCode.Success

/-- WindowManagerLinux::RestoreWindow. -/
def linuxRestoreWindow (lw : X11World) (ls : LinuxState) (h : Nat) : ErrorCode :=
  if ls.initialized = false then ErrorCode.NotInitialized
  else if linuxIsValidWindow lw ls h = false then ErrorCode.InvalidHandle
  else ErrorCode.Success

/-- WindowManagerLinux::ShowWindow. -/
def linuxShowWindow (lw : X11World) (ls : LinuxState) (h : Nat) : ErrorCode :=
  if ls.initialized = false then ErrorCode.NotInitialized
  else if linuxIsValidWindow lw ls h = false then ErrorCode.InvalidHandle
  else ErrorCode.Success

/-- WindowManagerLinux::HideWindow. -/
def linuxHideWindow (lw : X11World) (ls : LinuxState) (h : Nat) : ErrorCode :=
  if ls.initialized = false then ErrorCode.NotInitialized
  else if linuxIsValidWindow lw ls h = false then ErrorCode.InvalidHandle
  else ErrorCode.Success

/-- WindowManagerLinux::FocusWindow. -/
def linuxFocusWindow (lw : X11World) (ls : LinuxState) (h : Nat) : ErrorCode :=
  if ls.initialized = false then ErrorCode.NotInitialized
  else if linuxIsValidWindow lw ls h = false then ErrorCode.InvalidHandle
  else ErrorCode.Success

/-- WindowManagerLinux::SetAlwaysOnTop. -/
def linuxSetAlwaysOnTop (lw : X11World) (ls : LinuxState) (h : Nat) (topmost : Bool) :
    ErrorCode :=
  if ls.initialized = false then ErrorCode.NotInitialized
  else if linuxIsValidWindow lw ls h = false then ErrorCode.InvalidHandle
  else ErrorCode.Success

/-- WindowManagerLinux::SetWindowRect. -/
def linuxSetWindowRect (lw : X11World) (ls : LinuxState) (h : Nat) (r : Rect) :
    ErrorCode :=
  if ls.initialized = false then ErrorCode.NotInitialized
  else if linuxIsValidWindow lw ls h = false then ErrorCode.InvalidHandle
  else ErrorCode.Success

/-- WindowManagerLinux::MoveWindow. -/
def linuxMoveWindow (lw : X11World) (ls : LinuxState) (h : Nat) (x y : Int) :
    ErrorCode :=
  if ls.initialized = false then ErrorCode.NotInitialized
  else if linuxIsValidWindow lw ls h = false then ErrorCode.InvalidHandle
  else ErrorCode.Success

/-- WindowManagerLinux::ResizeWindow. -/
def linuxResizeWindow (lw : X11World) (ls : LinuxState) (h : Nat) (width height : Int) :
    ErrorCode :=
  if ls.initialized = false then ErrorCode.NotInitialized
  else if linuxIsValidWindow lw ls h = false then ErrorCode.InvalidHandle
  else ErrorCode.Success

/-- WindowManagerLinux::SetWindowTitle. -/
def linuxSetWindowTitle (lw : X11World) (ls : LinuxState) (h : Nat) (title : Str) :
    ErrorCode :=
  if ls.initialized = false then ErrorCode.NotInitialized
  else if linuxIsValidWindow lw ls h = false then ErrorCode.InvalidHandle
  else ErrorCode.Success

/-- WindowManagerLinux::SetWindowOpacity; the second component is the
unsigned long handed to XChangeProperty when the native call is reached.  The
source computes static_cast of (opacity * 0xFFFFFFFF) in float: the unsigned
constant 0xFFFFFFFF converts to float as 4294967296 (2^32 is the nearest
representable float to 2^32 - 1), and multiplying a float in [0, 1] by this
power of two is exact (no rounding, no overflow), so for every float input
the computed value is exactly the truncation of (clamped opacity) *
4294967296 - in particular 4294967296 itself, not 0xFFFFFFFF, for a fully
opaque request. -/
def linuxSetWindowOpacity (lw : X11World) (ls : LinuxState) (h : Nat) (opacity : ℚ) :
    ErrorCode × Option Nat :=
  if ls.initialized = false then (ErrorCode.NotInitialized, none)
  else if linuxIsValidWindow lw ls h = false then (ErrorCode.InvalidHandle, none)
  else (ErrorCode.Success, some (ratTrunc (clamp01 opacity * 4294967296)))

/-- The 32-bit cardinal a format-32 XChangeProperty stores from each unsigned
long element of its data: the element's low 32 bits. -/
def x11StoredOpacity (v : Nat) : Nat := v % 4294967296

/-! ## macOS backend (WindowManagerMacOS) -/

/-- One CGWindowList dictionary entry as the macOS backend reads it. -/
structure MacWin where
  wid : Nat := 0
  title : Str := []
  ownerName : Str := []
  pid : Nat := 0
  bounds : Option Rect := none
  onScreen : Bool := false
deriving DecidableEq

/-- The macOS native surface consulted by WindowManagerMacOS during one
snapshot.  cgWindows is the on-screen, desktop-excluded list walked by
GetAllWindows; queryWindow is the separate single-window CGWindowList query
(none when no window with that number exists, i.e. the handle is dead);
axWindowFor tells whether GetAXWindowForPid yields an accessibility window for
a pid; axCloseButton and axZoomButton tell whether the respective button
attribute is obtainable; runningApp tells whether NSRunningApplication resolves
a pid. -/
structure MacWorld where
  axTrusted : Bool
  cgWindows : List MacWin
  queryWindow : Nat → Option MacWin
  frontAppPid : Option Nat
  axWindowFor : Nat → Bool
  axCloseButton : Nat → Bool
  axZoomButton : Nat → Bool
  runningApp : Nat → Bool

/-- Instance state of WindowManagerMacOS: m_initialized and m_lastError. -/
structure MacState where
  initialized : Bool := false
  lastError : String := ""
deriving DecidableEq

/-- The advisory message stored when the accessibility trust check fails. -/
def axAdvisoryMsg : String :=
  "Accessibility permissions required. Please grant access in System Preferences."

/-- WindowManagerMacOS::Initialize: runs the accessibility trust check, stores
an advisory message when untrusted, and initializes regardless. -/
def macosInitialize (mw : MacWorld) (ms : MacState) : Bool × MacState :=
  if mw.axTrusted = false then
    (true, { initialized := true, lastError := axAdvisoryMsg })
  else (true, { ms with initialized := true })

/-- WindowManagerMacOS::IsInitialized. -/
def macosIsInitialized (ms : MacState) : Bool := ms.initialized

/-- WindowManagerMacOS::Shutdown. -/
def macosShutdown (ms : MacState) : MacState := { ms with initialized := false }

/-- The WindowInfo the macOS GetAllWindows loop assembles from one dictionary
(state is never touched there and keeps its Normal default). -/
def macosInfoOfWin (cw : MacWin) : WindowInfo :=
  { handle := cw.wid
    title := cw.title
    className := cw.ownerName
    rect := cw.bounds.getD {}
    state := stateNormal
    processId := cw.pid
    processName := cw.ownerName
    isVisible := cw.onScreen }

/-- WindowManagerMacOS::GetAllWindows: walk the on-screen list, skipping
windows with empty titles. -/
def macosGetAllWindows (mw : MacWorld) (ms : MacState) : List WindowInfo :=
  if ms.initialized = false then []
  else mw.cgWindows.filterMap fun cw =>
    if cw.title.isEmpty then none else some (macosInfoOfWin cw)

/-- WindowManagerMacOS::GetWindowInfo: single-window CGWindowList query; a
window absent from the list is an invalid handle. -/
def macosGetWindowInfo (mw : MacWorld) (ms : MacState) (h : Nat) :
    Result WindowInfo :=
  if ms.initialized = false then
    errResult ErrorCode.NotInitialized "WindowManager not initialized"
  else
    match mw.queryWindow h with
    | none => errResult ErrorCode.InvalidHandle "Invalid window handle"
    | some cw =>
      { value :=
          { handle := h
            title := cw.title
            className := cw.ownerName
            rect := cw.bounds.getD {}
            state := addFlag stateNormal (!cw.onScreen) stateHidden
            processId := cw.pid
            processName := cw.ownerName
            isVisible := cw.onScreen }
        error := ErrorCode.Success
        errorMessage := "" }

/-- WindowManagerMacOS::EnumerateWindows, observed as its visit trace: the loop
over GetAllWindows() that breaks right after the first refusal. -/
def macosEnumerateWindows (mw : MacWorld) (ms : MacState) (f : WindowInfo → Bool) :
    List WindowInfo :=
  if ms.initialized = false then [] else visitTrace f (macosGetAllWindows mw ms)

/-- WindowManagerMacOS::FindWindowsByTitle. -/
def macosFindWindowsByTitle (mw : MacWorld) (ms : MacState) (pat : Str)
    (caseSensitive : Bool) : List WindowInfo :=
  if ms.initialized = false then []
  else (macosGetAllWindows mw ms).filter fun info =>
    titleMatches pat caseSensitive info.title

/-- WindowManagerMacOS::FindWindowsByProcess. -/
def macosFindWindowsByProcess (mw : MacWorld) (ms : MacState) (pname : Str) :
    List WindowInfo :=
  if ms.initialized = false then []
  else (macosGetAllWindows mw ms).filter fun info =>
    toLowerCompare info.processName pname

/-- WindowManagerMacOS::GetWindowTitle (delegates to GetWindowInfo). -/
def macosGetWindowTitle (mw : MacWorld) (ms : MacState) (h : Nat) : Result Str :=
  if (macosGetWindowInfo mw ms h).error = ErrorCode.Success then
    ⟨(macosGetWindowInfo mw ms h).value.title, ErrorCode.Success, ""⟩
  else
    ⟨[], (macosGetWindowInfo mw ms h).error, (macosGetWindowInfo mw ms h).errorMessage⟩

/-- WindowManagerMacOS::GetWindowRect (delegates to GetWindowInfo). -/
def macosGetWindowRect (mw : MacWorld) (ms : MacState) (h : Nat) : Result Rect :=
  if (macosGetWindowInfo mw ms h).error = ErrorCode.Success then
    ⟨(macosGetWindowInfo mw ms h).value.rect, ErrorCode.Success, ""⟩
  else
    ⟨{}, (macosGetWindowInfo mw ms h).error, (macosGetWindowInfo mw ms h).errorMessage⟩

/-- WindowManagerMacOS::GetWindowState (delegates to GetWindowInfo). -/
def macosGetWindowState (mw : MacWorld) (ms : MacState) (h : Nat) : Result Nat :=
  if (macosGetWindowInfo mw ms h).error = ErrorCode.Success then
    ⟨(macosGetWindowInfo mw ms h).value.state, ErrorCode.Success, ""⟩
  else
    ⟨stateNormal, (macosGetWindowInfo mw ms h).error,
      (macosGetWindowInfo mw ms h).errorMessage⟩

/-- WindowManagerMacOS::GetWindowProcessId (delegates to GetWindowInfo). -/
def macosGetWindowProcessId (mw : MacWorld) (ms : MacState) (h : Nat) : Result Nat :=
  if (macosGetWindowInfo mw ms h).error = ErrorCode.Success then
    ⟨(macosGetWindowInfo mw ms h).value.processId, ErrorCode.Success, ""⟩
  else
    ⟨0, (macosGetWindowInfo mw ms h).error, (macosGetWindowInfo mw ms h).errorMessage⟩

/-- WindowManagerMacOS::IsWindowVisible. -/
def macosIsWindowVisible (mw : MacWorld) (ms : MacState) (h : Nat) : Bool :=
  (macosGetWindowInfo mw ms h).ok && (macosGetWindowInfo mw ms h).value.isVisible

/-- WindowManagerMacOS::IsValidWindow. -/
def macosIsValidWindow (mw : MacWorld) (ms : MacState) (h : Nat) : Bool :=
  (macosGetWindowInfo mw ms h).ok

/-- WindowManagerMacOS::GetFocusedWindow: the first titled on-screen window of
the frontmost application, in enumeration order (0 models the null handle). -/
def macosGetFocusedWindow (mw : MacWorld) (ms : MacState) : Nat :=
  if ms.initialized = false then 0
  else
    match mw.frontAppPid with
    | none => 0
    | some pid =>
      match mw.cgWindows.find? (fun cw => cw.pid == pid && !cw.title.isEmpty) with
      | some cw => cw.wid
      | none => 0

/-- WindowManagerMacOS::GetFocusedWindowInfo. -/
def macosGetFocusedWindowInfo (mw : MacWorld) (ms : MacState) : Result WindowInfo :=
  if macosGetFocusedWindow mw ms = 0 then
    errResult ErrorCode.WindowNotFound "No focused window found"
  else macosGetWindowInfo mw ms (macosGetFocusedWindow mw ms)

/-- One accessibility-layer side effect performed by a macOS mutation. -/
inductive AXAction where
  | pressClose (pid : Nat)
  | pressZoom (pid : Nat)
  | setMinimized (pid : Nat) (value : Bool)
  | raiseWin (pid : Nat)
  | activateApp (pid : Nat)
  | setPosition (pid : Nat) (x y : Int)
  | setSize (pid : Nat) (width height : Int)
deriving DecidableEq

/-- WindowManagerMacOS::CloseWindow: presses the close button through the
accessibility layer when it is obtainable; Success either way once the AX
window was found. -/
def macosCloseWindow (mw : MacWorld) (ms : MacState) (h : Nat) :
    ErrorCode × List AXAction :=
  if ms.initialized = false then (ErrorCode.NotInitialized, [])
  else if (macosGetWindowInfo mw ms h).error = ErrorCode.Success then
    if mw.axWindowFor (macosGetWindowInfo mw ms h).value.processId then
      if mw.axCloseButton (macosGetWindowInfo mw ms h).value.processId then
        (ErrorCode.Success, [AXAction.pressClose (macosGetWindowInfo mw ms h).value.processId])
      else (ErrorCode.Success, [])
    else (ErrorCode.AccessDenied, [])
  else ((macosGetWindowInfo mw ms h).error, [])

/-- WindowManagerMacOS::ForceCloseWindow: kills the owning process outright. -/
def macosForceCloseWindow (mw : MacWorld) (ms : MacState) (h : Nat) :
    ErrorCode × Option Nat :=
  if ms.initialized = false then (ErrorCode.NotInitialized, none)
  else if (macosGetWindowInfo mw ms h).error = ErrorCode.Success then
    (ErrorCode.Success, some (macosGetWindowInfo mw ms h).value.processId)
  else ((macosGetWindowInfo mw ms h).error, none)

/-- WindowManagerMacOS::MinimizeWindow: sets the AX minimized attribute true. -/
def macosMinimizeWindow (mw : MacWorld) (ms : MacState) (h : Nat) :
    ErrorCode × List AXAction :=
  if ms.initialized = false then (ErrorCode.NotInitialized, [])
  else if (macosGetWindowInfo mw ms h).error = ErrorCode.Success then
    if mw.axWindowFor (macosGetWindowInfo mw ms h).value.processId then
      (ErrorCode.Success,
        [AXAction.setMinimized (macosGetWindowInfo mw ms h).value.processId true])
    else (ErrorCode.AccessDenied, [])
  else ((macosGetWindowInfo mw ms h).error, [])

/-- WindowManagerMacOS::MaximizeWindow: presses the zoom button when
obtainable. -/
def macosMaximizeWindow (mw : MacWorld) (ms : MacState) (h : Nat) :
    ErrorCode × List AXAction :=
  if ms.initialized = false then (ErrorCode.NotInitialized, [])
  else if (macosGetWindowInfo mw ms h).error = ErrorCode.Success then
    if mw.axWindowFor (macosGetWindowInfo mw ms h).value.processId then
      if mw.axZoomButton (macosGetWindowInfo mw ms h).value.processId then
        (ErrorCode.Success, [AXAction.pressZoom (macosGetWindowInfo mw ms h).value.processId])
      else (ErrorCode.Success, [])
    else (ErrorCode.AccessDenied, [])
  else ((macosGetWindowInfo mw ms h).error, [])

/-- WindowManagerMacOS::RestoreWindow: sets the AX minimized attribute false. -/
def macosRestoreWindow (mw : MacWorld) (ms : MacState) (h : Nat) :
    ErrorCode × List AXAction :=
  if ms.initialized = false then (ErrorCode.NotInitialized, [])
  else if (macosGetWindowInfo mw ms h).error = ErrorCode.Success then
    if mw.axWindowFor (macosGetWindowInfo mw ms h).value.processId then
      (ErrorCode.Success,
        [AXAction.setMinimized (macosGetWindowInfo mw ms h).value.processId false])
    else (ErrorCode.AccessDenied, [])
  else ((macosGetWindowInfo mw ms h).error, [])

/-- WindowManagerMacOS::ShowWindow: delegates verbatim to RestoreWindow. -/
def macosShowWindow (mw : MacWorld) (ms : MacState) (h : Nat) :
    ErrorCode × List AXAction :=
  macosRestoreWindow mw ms h

/-- WindowManagerMacOS::HideWindow: delegates verbatim to MinimizeWindow. -/
def macosHideWindow (mw : MacWorld) (ms : MacState) (h : Nat) :
    ErrorCode × List AXAction :=
  macosMinimizeWindow mw ms h

/-- WindowManagerMacOS::FocusWindow: activates the owning application when
resolvable and raises the AX window when obtainable; Success regardless. -/
def macosFocusWindow (mw : MacWorld) (ms : MacState) (h : Nat) :
    ErrorCode × List AXAction :=
  if ms.initialized = false then (ErrorCode.NotInitialized, [])
  else if (macosGetWindowInfo mw ms h).error = ErrorCode.Success then
    (ErrorCode.Success,
      (if mw.runningApp (macosGetWindowInfo mw ms h).value.processId then
        [AXAction.activateApp (macosGetWindowInfo mw ms h).value.processId]
      else []) ++
      (if mw.axWindowFor (macosGetWindowInfo mw ms h).value.processId then
        [AXAction.raiseWin (macosGetWindowInfo mw ms h).value.processId]
      else []))
  else ((macosGetWindowInfo mw ms h).error, [])

/-- WindowManagerMacOS::SetAlwaysOnTop: unconditionally NotSupported (only the
advisory last-error message is written). -/
def macosSetAlwaysOnTop (ms : MacState) (h : Nat) (topmost : Bool) :
    ErrorCode × MacState :=
  (ErrorCode.NotSupported,
    { ms with lastError := "SetAlwaysOnTop not supported for external windows on macOS" })

/-- WindowManagerMacOS::SetWindowRect: sets AX position then size. -/
def macosSetWindowRect (mw : MacWorld) (ms : MacState) (h : Nat) (r : Rect) :
    ErrorCode × List AXAction :=
  if ms.initialized = false then (ErrorCode.NotInitialized, [])
  else if (macosGetWindowInfo mw ms h).error = ErrorCode.Success then
    if mw.axWindowFor (macosGetWindowInfo mw ms h).value.processId then
      (ErrorCode.Success,
        [AXAction.setPosition (macosGetWindowInfo mw ms h).value.processId r.x r.y,
         AXAction.setSize (macosGetWindowInfo mw ms h).value.processId r.width r.height])
    else (ErrorCode.AccessDenied, [])
  else ((macosGetWindowInfo mw ms h).error, [])

/-- WindowManagerMacOS::MoveWindow: sets AX position. -/
def macosMoveWindow (mw : MacWorld) (ms : MacState) (h : Nat) (x y : Int) :
    ErrorCode × List AXAction :=
  if ms.initialized = false then (ErrorCode.NotInitialized, [])
  else if (macosGetWindowInfo mw ms h).error = ErrorCode.Success then
    if mw.axWindowFor (macosGetWindowInfo mw ms h).value.processId then
      (ErrorCode.Success,
        [AXAction.setPosition (macosGetWindowInfo mw ms h).value.processId x y])
    else (ErrorCode.AccessDenied, [])
  else ((macosGetWindowInfo mw ms h).error, [])

/-- WindowManagerMacOS::ResizeWindow: sets AX size. -/
def macosResizeWindow (mw : MacWorld) (ms : MacState) (h : Nat) (width height : Int) :
    ErrorCode × List AXAction :=
  if ms.initialized = false then (ErrorCode.NotInitialized, [])
  else if (macosGetWindowInfo mw ms h).error = ErrorCode.Success then
    if mw.axWindowFor (macosGetWindowInfo mw ms h).value.processId then
      (ErrorCode.Success,
        [AXAction.setSize (macosGetWindowInfo mw ms h).value.processId width height])
    else (ErrorCode.AccessDenied, [])
  else ((macosGetWindowInfo mw ms h).error, [])

/-- WindowManagerMacOS::SetWindowTitle: unconditionally NotSupported. -/
def macosSetWindowTitle (ms : MacState) (h : Nat) (title : Str) :
    ErrorCode × MacState :=
  (ErrorCode.NotSupported,
    { ms with lastError := "SetWindowTitle not supported for external windows on macOS" })

/-- WindowManagerMacOS::SetWindowOpacity: unconditionally NotSupported. -/
def macosSetWindowOpacity (ms : MacState) (h : Nat) (opacity : ℚ) :
    ErrorCode × MacState :=
  (ErrorCode.NotSupported,
    { ms with lastError := "SetWindowOpacity not supported for external windows on macOS" })

/-! ## Operation dispatch for the error-precedence contract -/

/-- The handle-taking, Result- or ErrorCode-returning operations shared by the
Win32 and X11 backends, with their extra arguments. -/
inductive HandleOp where
  | opGetInfo
  | opGetTitle
  | opGetRect
  | opGetState
  | opGetPid
  | opClose
  | opForceClose
  | opMinimize
  | opMaximize
  | opRestore
  | opShow
  | opHide
  | opFocus
  | opSetTopmost (topmost : Bool)
  | opSetRect (r : Rect)
  | opMove (x y : Int)
  | opResize (width height : Int)
  | opSetTitle (title : Str)
  | opSetOpacity (opacity : ℚ)

/-- The ErrorCode reported by each Win32 operation. -/
def winOpCode (ww : WinWorld) (ws : WinState) : HandleOp → Nat → ErrorCode
  | HandleOp.opGetInfo, h => (winGetWindowInfo ww ws h).error
  | HandleOp.opGetTitle, h => (winGetWindowTitle ww ws h).error
  | HandleOp.opGetRect, h => (winGetWindowRectOp ww ws h).error
  | HandleOp.opGetState, h => (winGetWindowState ww ws h).error
  | HandleOp.opGetPid, h => (winGetWindowProcessId ww ws h).error
  | HandleOp.opClose, h => winCloseWindow ww ws h
  | HandleOp.opForceClose, h => winForceCloseWindow ww ws h
  | HandleOp.opMinimize, h => winMinimizeWindow ww ws h
  | HandleOp.opMaximize, h => winMaximizeWindow ww ws h
  | HandleOp.opRestore, h => winRestoreWindow ww ws h
  | HandleOp.opShow, h => winShowWindow ww ws h
  | HandleOp.opHide, h => winHideWindow ww ws h
  | HandleOp.opFocus, h => winFocusWindow ww ws h
  | HandleOp.opSetTopmost t, h => winSetAlwaysOnTop ww ws h t
  | HandleOp.opSetRect r, h => winSetWindowRect ww ws h r
  | HandleOp.opMove x y, h => winMoveWindow ww ws h x y
  | HandleOp.opResize a b, h => winResizeWindow ww ws h a b
  | HandleOp.opSetTitle t, h => winSetWindowTitle ww ws h t
  | HandleOp.opSetOpacity q, h => (winSetWindowOpacity ww ws h q).1

/-- The ErrorCode reported by each X11 operation. -/
def linuxOpCode (lw : X11World) (ls : LinuxState) : HandleOp → Nat → ErrorCode
  | HandleOp.opGetInfo, h => (linuxGetWindowInfo lw ls h).error
  | HandleOp.opGetTitle, h => (linuxGetWindowTitle lw ls h).error
  | HandleOp.opGetRect, h => (linuxGetWindowRect lw ls h).error
  | HandleOp.opGetState, h => (linuxGetWindowState lw ls h).error
  | HandleOp.opGetPid, h => (linuxGetWindowProcessId lw ls h).error
  | HandleOp.opClose, h => linuxCloseWindow lw ls h
  | HandleOp.opForceClose, h => linuxForceCloseWindow lw ls h
  | HandleOp.opMinimize, h => linuxMinimizeWindow lw ls h
  | HandleOp.opMaximize, h => linuxMaximizeWindow lw ls h
  | HandleOp.opRestore, h => linuxRestoreWindow lw ls h
  | HandleOp.opShow, h => linuxShowWindow lw ls h
  | HandleOp.opHide, h => linuxHideWindow lw ls h
  | HandleOp.opFocus, h => linuxFocusWindow lw ls h
  | HandleOp.opSetTopmost t, h => linuxSetAlwaysOnTop lw ls h t
  | HandleOp.opSetRect r, h => linuxSetWindowRect lw ls h r
  | HandleOp.opMove x y, h => linuxMoveWindow lw ls h x y
  | HandleOp.opResize a b, h => linuxResizeWindow lw ls h a b
  | HandleOp.opSetTitle t, h => linuxSetWindowTitle lw ls h t
  | HandleOp.opSetOpacity q, h => (linuxSetWindowOpacity lw ls h q).1

/-- The handle-taking, Result- or ErrorCode-returning operations of the macOS
backend other than the three unconditional NotSupported ones. -/
inductive MacOp where
  | opGetInfo
  | opGetTitle
  | opGetRect
  | opGetState
  | opGetPid
  | opClose
  | opForceClose
  | opMinimize
  | opMaximize
  | opRestore
  | opShow
  | opHide
  | opFocus
  | opSetRect (r : Rect)
  | opMove (x y : Int)
  | opResize (width height : Int)

/-- The ErrorCode reported by each covered macOS operation. -/
def macosOpCode (mw : MacWorld) (ms : MacState) : MacOp → Nat → ErrorCode
  | MacOp.opGetInfo, h => (macosGetWindowInfo mw ms h).error
  | MacOp.opGetTitle, h => (macosGetWindowTitle mw ms h).error
  | MacOp.opGetRect, h => (macosGetWindowRect mw ms h).error
  | MacOp.opGetState, h => (macosGetWindowState mw ms h).error
  | MacOp.opGetPid, h => (macosGetWindowProcessId mw ms h).error
  | MacOp.opClose, h => (macosCloseWindow mw ms h).1
  | MacOp.opForceClose, h => (macosForceCloseWindow mw ms h).1
  | MacOp.opMinimize, h => (macosMinimizeWindow mw ms h).1
  | MacOp.opMaximize, h => (macosMaximizeWindow mw ms h).1
  | MacOp.opRestore, h => (macosRestoreWindow mw ms h).1
  | MacOp.opShow, h => (macosShowWindow mw ms h).1
  | MacOp.opHide, h => (macosHideWindow mw ms h).1
  | MacOp.opFocus, h => (macosFocusWindow mw ms h).1
  | MacOp.opSetRect r, h => (macosSetWindowRect mw ms h r).1
  | MacOp.opMove x y, h => (macosMoveWindow mw ms h x y).1
  | MacOp.opResize a b, h => (macosResizeWindow mw ms h a b).1

/-! ## Sample worlds and states used by the concrete witnesses -/

/-- A Win32 world holding one valid, visible, titled window 7. -/
def sampleWinWorld : WinWorld :=
  { isWindow := fun h => h == 7
    visibleRaw := fun h => h == 7
    owner := fun _ => none
    textLen := fun h => if h == 7 then 2 else 0
    titleText := fun _ => [72, 105]
    classNameOf := fun _ => []
    pidOf := fun _ => 42
    procNameOf := fun _ => [97]
    rectQuery := fun _ => none
    iconic := fun _ => false
    zoomed := fun _ => false
    topmostEx := fun _ => false
    foreground := 0
    enumList := [7]
    canTerminate := fun _ => false
    wideSizeOf := fun _ => 1 }

/-- An X11 world holding one probe-valid client window 5 whose geometry
sub-query fails. -/
def sampleX11World : X11World :=
  { displayAvailable := true
    clientList := [5]
    probeOk := fun h => h == 5
    attrs := fun _ => none
    netWmName := fun _ => some [72, 105]
    wmName := fun _ => none
    classHint := fun _ => none
    pidProp := fun _ => none
    procNameOf := fun _ => []
    hasHidden := fun _ => false
    hasMaxVert := fun _ => false
    hasMaxHorz := fun _ => false
    hasFullscreen := fun _ => false
    hasAbove := fun _ => false
    activeWindow := 0 }

/-- The single on-screen window of the sample macOS world. -/
def sampleMacWin : MacWin :=
  { wid := 9, title := [72], ownerName := [97], pid := 3, bounds := none, onScreen := true }

/-- A trusted macOS world holding one titled on-screen window 9. -/
def sampleMacWorld : MacWorld :=
  { axTrusted := true
    cgWindows := [sampleMacWin]
    queryWindow := fun h => if h == 9 then some sampleMacWin else none
    frontAppPid := none
    axWindowFor := fun _ => true
    axCloseButton := fun _ => true
    axZoomButton := fun _ => true
    runningApp := fun _ => true }

/-- The sample macOS world with the accessibility trust check failing. -/
def sampleMacWorldUntrusted : MacWorld := { sampleMacWorld with axTrusted := false }

/-- An initialized X11 backend state. -/
def initLinuxState : LinuxState :=
  { initialized := true, displayOpen := true, atomsCached := true }

/-! ## Error-precedence lemmas (shared) -/

theorem winOpCode_uninit (ww : WinWorld) (ws : WinState) (op : HandleOp) (h : Nat)
    (hni : ws.initialized = false) : winOpCode ww ws op h = ErrorCode.NotInitialized := by
  cases op <;>
    simp [winOpCode, winGetWindowInfo, winGetWindowTitle, winGetWindowRectOp,
      winGetWindowState, winGetWindowProcessId, winCloseWindow, winForceCloseWindow,
      winMinimizeWindow, winMaximizeWindow, winRestoreWindow, winShowWindow,
      winHideWindow, winFocusWindow, winSetAlwaysOnTop, winSetWindowRect,
      winMoveWindow, winResizeWindow, winSetWindowTitle, winSetWindowOpacity,
      errResult, hni]

theorem winOpCode_invalid (ww : WinWorld) (ws : WinState) (op : HandleOp) (h : Nat)
    (hi : ws.initialized = true) (hw : ww.isWindow h = false) :
    winOpCode ww ws op h = ErrorCode.InvalidHandle := by
  cases op <;>
    simp [winOpCode, winGetWindowInfo, winGetWindowTitle, winGetWindowRectOp,
      winGetWindowState, winGetWindowProcessId, winCloseWindow, winForceCloseWindow,
      winMinimizeWindow, winMaximizeWindow, winRestoreWindow, winShowWindow,
      winHideWindow, winFocusWindow, winSetAlwaysOnTop, winSetWindowRect,
      winMoveWindow, winResizeWindow, winSetWindowTitle, winSetWindowOpacity,
      errResult, hi, hw]

theorem linuxOpCode_uninit (lw : X11World) (ls : LinuxState) (op : HandleOp) (h : Nat)
    (hni : ls.initialized = false) : linuxOpCode lw ls op h = ErrorCode.NotInitialized := by
  cases op <;>
    simp [linuxOpCode, linuxGetWindowInfo, linuxGetWindowTitle, linuxGetWindowRect,
      linuxGetWindowState, linuxGetWindowProcessId, linuxCloseWindow,
      linuxForceCloseWindow, linuxMinimizeWindow, linuxMaximizeWindow,
      linuxRestoreWindow, linuxShowWindow, linuxHideWindow, linuxFocusWindow,
      linuxSetAlwaysOnTop, linuxSetWindowRect, linuxMoveWindow, linuxResizeWindow,
      linuxSetWindowTitle, linuxSetWindowOpacity, errResult, hni]

theorem linuxOpCode_invalid (lw : X11World) (ls : LinuxState) (op : HandleOp) (h : Nat)
    (hi : ls.initialized = true) (hv : lw.probeOk h = false) :
    linuxOpCode lw ls op h = ErrorCode.InvalidHandle := by
  cases op <;>
    simp [linuxOpCode, linuxGetWindowInfo, linuxGetWindowTitle, linuxGetWindowRect,
      linuxGetWindowState, linuxGetWindowProcessId, linuxCloseWindow,
      linuxForceCloseWindow, linuxMinimizeWindow, linuxMaximizeWindow,
      linuxRestoreWindow, linuxShowWindow, linuxHideWindow, linuxFocusWindow,
      linuxSetAlwaysOnTop, linuxSetWindowRect, linuxMoveWindow, linuxResizeWindow,
      linuxSetWindowTitle, linuxSetWindowOpacity, linuxIsValidWindow, errResult,
      hi, hv]

theorem macosOpCode_uninit (mw : MacWorld) (ms : MacState) (op : MacOp) (h : Nat)
    (hni : ms.initialized = false) : macosOpCode mw ms op h = ErrorCode.NotInitialized := by
  cases op <;>
    simp [macosOpCode, macosGetWindowInfo, macosGetWindowTitle, macosGetWindowRect,
      macosGetWindowState, macosGetWindowProcessId, macosCloseWindow,
      macosForceCloseWindow, macosMinimizeWindow, macosMaximizeWindow,
      macosRestoreWindow, macosShowWindow, macosHideWindow, macosFocusWindow,
      macosSetWindowRect, macosMoveWindow, macosResizeWindow, errResult, hni]

theorem macosOpCode_invalid (mw : MacWorld) (ms : MacState) (op : MacOp) (h : Nat)
    (hi : ms.initialized = true) (hq : mw.queryWindow h = none) :
    macosOpCode mw ms op h = ErrorCode.InvalidHandle := by
  cases op <;>
    simp [macosOpCode, macosGetWindowInfo, macosGetWindowTitle, macosGetWindowRect,
      macosGetWindowState, macosGetWindowProcessId, macosCloseWindow,
      macosForceCloseWindow, macosMinimizeWindow, macosMaximizeWindow,
      macosRestoreWindow, macosShowWindow, macosHideWindow, macosFocusWindow,
      macosSetWindowRect, macosMoveWindow, macosResizeWindow, errResult, hi, hq]

/-! ## Claim C1 -/

/-- Claim C1 counterexample: on the macOS backend, SetWindowTitle called while
the backend is uninitialized returns NotSupported, not NotInitialized, so the
stated precedence does not hold for every Result- or ErrorCode-returning
operation. -/
theorem c1_counterexample :
    (macosSetWindowTitle {} 0 []).1 = ErrorCode.NotSupported ∧
    (macosSetWindowTitle {} 0 []).1 ≠ ErrorCode.NotInitialized := by
  exact ⟨rfl, by decide⟩

/-- Claim C1 (amended): for the Win32, X11 and macOS backends, every
handle-taking Result- or ErrorCode-returning operation - except the three
macOS operations that are unconditionally NotSupported (SetAlwaysOnTop,
SetWindowTitle, SetWindowOpacity) - returns NotInitialized whenever the
backend is uninitialized, before any handle-validity check, and returns
InvalidHandle whenever the backend is initialized but the handle fails the
platform validity check, before the requested effect is attempted. -/
theorem c1_errorPrecedence :
    (∀ (ww : WinWorld) (ws : WinState) (op : HandleOp) (h : Nat),
        ws.initialized = false → winOpCode ww ws op h = ErrorCode.NotInitialized) ∧
    (∀ (ww : WinWorld) (ws : WinState) (op : HandleOp) (h : Nat),
        ws.initialized = true → ww.isWindow h = false →
        winOpCode ww ws op h = ErrorCode.InvalidHandle) ∧
    (∀ (lw : X11World) (ls : LinuxState) (op : HandleOp) (h : Nat),
        ls.initialized = false → linuxOpCode lw ls op h = ErrorCode.NotInitialized) ∧
    (∀ (lw : X11World) (ls : LinuxState) (op : HandleOp) (h : Nat),
        ls.initialized = true → lw.probeOk h = false →
        linuxOpCode lw ls op h = ErrorCode.InvalidHandle) ∧
    (∀ (mw : MacWorld) (ms : MacState) (op : MacOp) (h : Nat),
        ms.initialized = false → macosOpCode mw ms op h = ErrorCode.NotInitialized) ∧
    (∀ (mw : MacWorld) (ms : MacState) (op : MacOp) (h : Nat),
        ms.initialized = true → mw.queryWindow h = none →
        macosOpCode mw ms op h = ErrorCode.InvalidHandle) :=
  ⟨winOpCode_uninit, winOpCode_invalid, linuxOpCode_uninit, linuxOpCode_invalid,
    macosOpCode_uninit, macosOpCode_invalid⟩

/-- Concrete instantiation of the C1 precedence theorem: one uninitialized and
one invalid-handle call per backend. -/
theorem c1_errorPrecedence_witness :
    winOpCode sampleWinWorld {} HandleOp.opGetInfo 7 = ErrorCode.NotInitialized ∧
    winOpCode sampleWinWorld { initialized := true } HandleOp.opClose 3 =
      ErrorCode.InvalidHandle ∧
    linuxOpCode sampleX11World {} HandleOp.opGetTitle 5 = ErrorCode.NotInitialized ∧
    linuxOpCode sampleX11World initLinuxState HandleOp.opShow 6 =
      ErrorCode.InvalidHandle ∧
    macosOpCode sampleMacWorld {} MacOp.opGetInfo 9 = ErrorCode.NotInitialized ∧
    macosOpCode sampleMacWorld { initialized := true } MacOp.opMinimize 4 =
      ErrorCode.InvalidHandle :=
  ⟨c1_errorPrecedence.1 _ _ _ _ rfl,
    c1_errorPrecedence.2.1 _ _ _ _ rfl (by decide),
    c1_errorPrecedence.2.2.1 _ _ _ _ rfl,
    c1_errorPrecedence.2.2.2.1 _ _ _ _ rfl (by decide),
    c1_errorPrecedence.2.2.2.2.1 _ _ _ _ rfl,
    c1_errorPrecedence.2.2.2.2.2 _ _ _ _ rfl (by decide)⟩

/-! ## Claim C2 -/

/-- Claim C2: on the macOS backend, SetAlwaysOnTop, SetWindowTitle and
SetWindowOpacity return NotSupported for every state (hence regardless of
initialization), every handle and every argument value. -/
theorem c2_macosNotSupported :
    ∀ (ms : MacState) (h : Nat) (topmost : Bool) (title : Str) (opacity : ℚ),
      (macosSetAlwaysOnTop ms h topmost).1 = ErrorCode.NotSupported ∧
      (macosSetWindowTitle ms h title).1 = ErrorCode.NotSupported ∧
      (macosSetWindowOpacity ms h opacity).1 = ErrorCode.NotSupported :=
  fun _ _ _ _ _ => ⟨rfl, rfl, rfl⟩

/-! ## Claim C3 -/

theorem linuxGetWindowInfo_title (lw : X11World) (ls : LinuxState) (h : Nat)
    (hok : (linuxGetWindowInfo lw ls h).error = ErrorCode.Success) :
    (linuxGetWindowInfo lw ls h).value.title = linuxTitleInternal lw h := by
  by_cases h1 : ls.initialized = false
  · simp [linuxGetWindowInfo, h1, errResult] at hok
  · by_cases h2 : linuxIsValidWindow lw ls h = false
    · simp [linuxGetWindowInfo, h1, h2, errResult] at hok
    · simp [linuxGetWindowInfo, h1, h2]

theorem linuxFindGo_eq (lw : X11World) (ls : LinuxState) (pat : Str) (cs : Bool) :
    ∀ l : List Nat, linuxFindGo lw ls pat cs l =
      (linuxCollect lw ls l).filter fun info => titleMatches pat cs info.title
  | [] => rfl
  | h :: t => by
    by_cases hok : (linuxGetWindowInfo lw ls h).error = ErrorCode.Success
    · have ht := linuxGetWindowInfo_title lw ls h hok
      by_cases hm : titleMatches pat cs (linuxTitleInternal lw h)
      · simp [linuxFindGo, linuxCollect, hok, hm, ht, List.filter_cons,
          linuxFindGo_eq lw ls pat cs t]
      · simp [linuxFindGo, linuxCollect, hok, hm, ht, List.filter_cons,
          linuxFindGo_eq lw ls pat cs t]
    · by_cases hm : titleMatches pat cs (linuxTitleInternal lw h)
      · simp [linuxFindGo, linuxCollect, hok, hm, linuxFindGo_eq lw ls pat cs t]
      · simp [linuxFindGo, linuxCollect, hok, hm, linuxFindGo_eq lw ls pat cs t]

/-- Claim C3: on every backend, FindWindowsByTitle returns exactly the
subsequence of GetAllWindows whose title matches the pattern: with
caseSensitive = false both the title and the pattern are lowercased byte-wise
before the substring containment test, with caseSensitive = true the
exact-case substring containment test is applied. -/
theorem c3_findWindowsByTitle :
    (∀ pat t : Str, titleMatches pat false t = strFindSub (lowerStr pat) (lowerStr t)) ∧
    (∀ pat t : Str, titleMatches pat true t = strFindSub pat t) ∧
    (∀ (ww : WinWorld) (ws : WinState) (pat : Str) (cs : Bool),
        winFindWindowsByTitle ww ws pat cs =
          (winGetAllWindows ww ws).filter fun info => titleMatches pat cs info.title) ∧
    (∀ (lw : X11World) (ls : LinuxState) (pat : Str) (cs : Bool),
        linuxFindWindowsByTitle lw ls pat cs =
          (linuxGetAllWindows lw ls).filter fun info => titleMatches pat cs info.title) ∧
    (∀ (mw : MacWorld) (ms : MacState) (pat : Str) (cs : Bool),
        macosFindWindowsByTitle mw ms pat cs =
          (macosGetAllWindows mw ms).filter fun info => titleMatches pat cs info.title) := by
  refine ⟨fun pat t => rfl, fun pat t => rfl, ?_, ?_, ?_⟩
  · intro ww ws pat cs
    cases hI : ws.initialized <;> simp [winFindWindowsByTitle, winGetAllWindows, hI]
  · intro lw ls pat cs
    cases hI : ls.initialized <;>
      simp [linuxFindWindowsByTitle, linuxGetAllWindows, hI, linuxFindGo_eq]
  · intro mw ms pat cs
    cases hI : ms.initialized <;> simp [macosFindWindowsByTitle, macosGetAllWindows, hI]

/-! ## Claim C4 -/

theorem visitTrace_first_false {α : Type} (x : α) (xs : List α) :
    visitTrace (fun _ => false) (x :: xs) = [x] := by
  simp [visitTrace]

theorem winEnumGo_eq (ww : WinWorld) (ws : WinState) (f : WindowInfo → Bool) :
    ∀ l : List Nat, winEnumGo ww ws f l = visitTrace f (winCollect ww ws l)
  | [] => rfl
  | h :: t => by
    by_cases hk : winEnumKeep ww h
    · by_cases hok : (winGetWindowInfo ww ws h).error = ErrorCode.Success
      · by_cases hf : f (winGetWindowInfo ww ws h).value
        · simp [winEnumGo, winCollect, visitTrace, hk, hok, hf, winEnumGo_eq ww ws f t]
        · simp [winEnumGo, winCollect, visitTrace, hk, hok, hf]
      · simp [winEnumGo, winCollect, hk, hok, winEnumGo_eq ww ws f t]
    · simp [winEnumGo, winCollect, hk, winEnumGo_eq ww ws f t]

theorem linuxEnumGo_eq (lw : X11World) (ls : LinuxState) (f : WindowInfo → Bool) :
    ∀ l : List Nat, linuxEnumGo lw ls f l = visitTrace f (linuxCollect lw ls l)
  | [] => rfl
  | h :: t => by
    by_cases hok : (linuxGetWindowInfo lw ls h).error = ErrorCode.Success
    · by_cases hf : f (linuxGetWindowInfo lw ls h).value
      · simp [linuxEnumGo, linuxCollect, visitTrace, hok, hf, linuxEnumGo_eq lw ls f t]
      · simp [linuxEnumGo, linuxCollect, visitTrace, hok, hf]
    · simp [linuxEnumGo, linuxCollect, hok, linuxEnumGo_eq lw ls f t]

theorem winEnumerate_eq_trace (ww : WinWorld) (ws : WinState) (f : WindowInfo → Bool) :
    winEnumerateWindows ww ws f = visitTrace f (winGetAllWindows ww ws) := by
  cases hI : ws.initialized <;>
    simp [winEnumerateWindows, winGetAllWindows, hI, winEnumGo_eq, visitTrace]

theorem linuxEnumerate_eq_trace (lw : X11World) (ls : LinuxState) (f : WindowInfo → Bool) :
    linuxEnumerateWindows lw ls f = visitTrace f (linuxGetAllWindows lw ls) := by
  cases hI : ls.initialized <;>
    simp [linuxEnumerateWindows, linuxGetAllWindows, hI, linuxEnumGo_eq, visitTrace]

theorem macosEnumerate_eq_trace (mw : MacWorld) (ms : MacState) (f : WindowInfo → Bool) :
    macosEnumerateWindows mw ms f = visitTrace f (macosGetAllWindows mw ms) := by
  cases hI : ms.initialized <;>
    simp [macosEnumerateWindows, macosGetAllWindows, hI, visitTrace]

/-- Claim C4: on every backend, EnumerateWindows visits the same windows in the
same order as GetAllWindows returns them, stopping without error right after
the first visitor refusal; in particular a visitor that refuses its first
window is invoked on exactly one window when the enumeration set is
non-empty. -/
theorem c4_enumerateTrace :
    (∀ (ww : WinWorld) (ws : WinState) (f : WindowInfo → Bool),
        winEnumerateWindows ww ws f = visitTrace f (winGetAllWindows ww ws)) ∧
    (∀ (lw : X11World) (ls : LinuxState) (f : WindowInfo → Bool),
        linuxEnumerateWindows lw ls f = visitTrace f (linuxGetAllWindows lw ls)) ∧
    (∀ (mw : MacWorld) (ms : MacState) (f : WindowInfo → Bool),
        macosEnumerateWindows mw ms f = visitTrace f (macosGetAllWindows mw ms)) ∧
    (∀ (ww : WinWorld) (ws : WinState) (i : WindowInfo) (rest : List WindowInfo),
        winGetAllWindows ww ws = i :: rest →
        winEnumerateWindows ww ws (fun _ => false) = [i]) ∧
    (∀ (lw : X11World) (ls : LinuxState) (i : WindowInfo) (rest : List WindowInfo),
        linuxGetAllWindows lw ls = i :: rest →
        linuxEnumerateWindows lw ls (fun _ => false) = [i]) ∧
    (∀ (mw : MacWorld) (ms : MacState) (i : WindowInfo) (rest : List WindowInfo),
        macosGetAllWindows mw ms = i :: rest →
        macosEnumerateWindows mw ms (fun _ => false) = [i]) := by
  refine ⟨winEnumerate_eq_trace, linuxEnumerate_eq_trace, macosEnumerate_eq_trace,
    ?_, ?_, ?_⟩
  · intro ww ws i rest hall
    rw [winEnumerate_eq_trace, hall, visitTrace_first_false]
  · intro lw ls i rest hall
    rw [linuxEnumerate_eq_trace, hall, visitTrace_first_false]
  · intro mw ms i rest hall
    rw [macosEnumerate_eq_trace, hall, visitTrace_first_false]

/-- The WindowInfo GetAllWindows assembles for window 7 of sampleWinWorld. -/
def sampleWinInfo : WindowInfo :=
  { handle := 7, title := [72, 105], processId := 42, processName := [97],
    isVisible := true }

/-- The WindowInfo GetAllWindows assembles for window 5 of sampleX11World. -/
def sampleLinuxInfo : WindowInfo := { handle := 5, title := [72, 105] }

/-- The WindowInfo GetAllWindows assembles for window 9 of sampleMacWorld. -/
def sampleMacInfo : WindowInfo :=
  { handle := 9, title := [72], className := [97], processId := 3,
    processName := [97], isVisible := true }

/-- Concrete instantiation of the C4 theorem: on each backend's sample world a
visitor refusing its first window is invoked on exactly that window. -/
theorem c4_enumerateTrace_witness :
    winEnumerateWindows sampleWinWorld { initialized := true } (fun _ => false) =
      [sampleWinInfo] ∧
    linuxEnumerateWindows sampleX11World initLinuxState (fun _ => false) =
      [sampleLinuxInfo] ∧
    macosEnumerateWindows sampleMacWorld { initialized := true } (fun _ => false) =
      [sampleMacInfo] :=
  ⟨c4_enumerateTrace.2.2.2.1 sampleWinWorld { initialized := true } sampleWinInfo []
      (by decide),
    c4_enumerateTrace.2.2.2.2.1 sampleX11World initLinuxState sampleLinuxInfo []
      (by decide),
    c4_enumerateTrace.2.2.2.2.2 sampleMacWorld { initialized := true } sampleMacInfo []
      (by decide)⟩

/-! ## Claim C5 -/

theorem clamp01_nonneg (q : ℚ) : 0 ≤ clamp01 q := le_max_left 0 (min 1 q)

theorem clamp01_le_one (q : ℚ) : clamp01 q ≤ 1 :=
  max_le (by norm_num) (min_le_left 1 q)

theorem clamp01_idem (q : ℚ) : clamp01 (clamp01 q) = clamp01 q := by
  have h0 := clamp01_nonneg q
  have h1 := clamp01_le_one q
  show max 0 (min 1 (clamp01 q)) = clamp01 q
  rw [min_eq_right h1, max_eq_right h0]

theorem clamp01_neg_one : clamp01 (-1) = 0 := by
  have h1 : ((-1 : ℚ)) ≤ 1 := by norm_num
  have h2 : ((-1 : ℚ)) ≤ 0 := by norm_num
  show max 0 (min 1 (-1 : ℚ)) = 0
  rw [min_eq_right h1, max_eq_left h2]

theorem clamp01_half : clamp01 (1 / 2) = 1 / 2 := by
  have h1 : ((1 / 2 : ℚ)) ≤ 1 := by norm_num
  have h2 : ((0 : ℚ)) ≤ 1 / 2 := by norm_num
  show max 0 (min 1 (1 / 2 : ℚ)) = 1 / 2
  rw [min_eq_right h1, max_eq_right h2]

theorem clamp01_two : clamp01 2 = 1 := by
  have h1 : ((1 : ℚ)) ≤ 2 := by norm_num
  have h2 : ((0 : ℚ)) ≤ 1 := by norm_num
  show max 0 (min 1 (2 : ℚ)) = 1
  rw [min_eq_left h1, max_eq_right h2]

/-- Claim C5 (code-bug evaluation): the clamp into [0, 1] before use holds on
both backends - the value reaching the native call is a function of the
clamped value only, and the inputs -1, 1/2, 2 clamp to 0, 1/2, 1 - and the
Win32 alpha is the clamped value scaled by 255 (0/127/255 for those
inputs).  But on X11 the float conversion of the constant 0xFFFFFFFF makes
the scale factor 4294967296, so the unsigned long reaching XChangeProperty
for those inputs is 0, 2147483648, 4294967296 - not the claimed
0, 2147483647, 4294967295 - and for the fully opaque request the 32-bit
property actually stored is the low 32 bits of 4294967296, which is 0, not
the 0xFFFFFFFF the claim and the code's own comment state. -/
theorem c5_opacityFloatBehavior :
    (∀ q : ℚ, 0 ≤ clamp01 q ∧ clamp01 q ≤ 1) ∧
    (∀ (ww : WinWorld) (ws : WinState) (h : Nat) (q : ℚ),
        winSetWindowOpacity ww ws h q = winSetWindowOpacity ww ws h (clamp01 q)) ∧
    (∀ (lw : X11World) (ls : LinuxState) (h : Nat) (q : ℚ),
        linuxSetWindowOpacity lw ls h q = linuxSetWindowOpacity lw ls h (clamp01 q)) ∧
    (clamp01 (-1) = 0 ∧ clamp01 (1 / 2) = 1 / 2 ∧ clamp01 2 = 1) ∧
    (∀ (ww : WinWorld) (ws : WinState) (h : Nat),
        ws.initialized = true → ww.isWindow h = true →
          (winSetWindowOpacity ww ws h (-1)).2 = some 0 ∧
          (winSetWindowOpacity ww ws h (1 / 2)).2 = some 127 ∧
          (winSetWindowOpacity ww ws h 2).2 = some 255) ∧
    (∀ (lw : X11World) (ls : LinuxState) (h : Nat),
        ls.initialized = true → lw.probeOk h = true →
          (linuxSetWindowOpacity lw ls h (-1)).2 = some 0 ∧
          (linuxSetWindowOpacity lw ls h (1 / 2)).2 = some 2147483648 ∧
          (linuxSetWindowOpacity lw ls h 2).2 = some 4294967296 ∧
          (linuxSetWindowOpacity lw ls h 2).2.map x11StoredOpacity = some 0) ∧
    x11StoredOpacity 4294967296 ≠ 4294967295 := by
  refine ⟨fun q => ⟨clamp01_nonneg q, clamp01_le_one q⟩, ?_, ?_,
    ⟨clamp01_neg_one, clamp01_half, clamp01_two⟩, ?_, ?_, by decide⟩
  · intro ww ws h q
    simp [winSetWindowOpacity, clamp01_idem]
  · intro lw ls h q
    simp [linuxSetWindowOpacity, clamp01_idem]
  · intro ww ws h hi hw
    have hg : ∀ q : ℚ,
        (winSetWindowOpacity ww ws h q).2 = some (ratTrunc (clamp01 q * 255)) := by
      intro q; simp [winSetWindowOpacity, hi, hw]
    refine ⟨?_, ?_, ?_⟩ <;> rw [hg]
    · rw [clamp01_neg_one]; norm_num [ratTrunc] <;> rfl
    · rw [clamp01_half]; norm_num [ratTrunc] <;> rfl
    · rw [clamp01_two]; norm_num [ratTrunc] <;> rfl
  · intro lw ls h hi hp
    have hg : ∀ q : ℚ,
        (linuxSetWindowOpacity lw ls h q).2 =
          some (ratTrunc (clamp01 q * 4294967296)) := by
      intro q; simp [linuxSetWindowOpacity, linuxIsValidWindow, hi, hp]
    have h2 : (linuxSetWindowOpacity lw ls h 2).2 = some 4294967296 := by
      rw [hg, clamp01_two]; norm_num [ratTrunc] <;> rfl
    refine ⟨?_, ?_, h2, ?_⟩
    · rw [hg, clamp01_neg_one]; norm_num [ratTrunc] <;> rfl
    · rw [hg, clamp01_half]; norm_num [ratTrunc] <;> rfl
    · rw [h2]; norm_num [x11StoredOpacity]

/-- Concrete instantiation of the C5 behavior theorem on the sample worlds,
exhibiting the fully opaque request whose stored 32-bit property is 0. -/
theorem c5_opacityFloatBehavior_witness :
    (winSetWindowOpacity sampleWinWorld { initialized := true } 7 (1 / 2)).2 =
      some 127 ∧
    (linuxSetWindowOpacity sampleX11World initLinuxState 5 2).2 = some 4294967296 ∧
    (linuxSetWindowOpacity sampleX11World initLinuxState 5 2).2.map x11StoredOpacity =
      some 0 :=
  ⟨(c5_opacityFloatBehavior.2.2.2.2.1 sampleWinWorld { initialized := true } 7 rfl
      (by decide)).2.1,
    (c5_opacityFloatBehavior.2.2.2.2.2.1 sampleX11World initLinuxState 5 rfl
      (by decide)).2.2.1,
    (c5_opacityFloatBehavior.2.2.2.2.2.1 sampleX11World initLinuxState 5 rfl
      (by decide)).2.2.2⟩

/-! ## Claim C6 -/

/-- Claim C6 counterexample: on the macOS backend, a second Initialize while
already initialized does not leave the state unchanged when the trust check
fails: the last-error slot is overwritten with the advisory message. -/
theorem c6_counterexample :
    (macosInitialize sampleMacWorldUntrusted
        { initialized := true, lastError := "" }).2 ≠
      ({ initialized := true, lastError := "" } : MacState) := by
  decide

/-- Claim C6 (amended): Initialize is idempotent in its result and resource
effects on every backend: called while already initialized it returns true and
acquires no platform resource; on the Win32 and X11 backends the instance
state is fully unchanged; on the macOS backend the accessibility trust check
still runs, so the state is unchanged when the process is trusted, and
otherwise only the last-error slot is overwritten while the backend stays
initialized. -/
theorem c6_initializeIdempotent :
    (∀ ws : WinState, ws.initialized = true → winInitialize ws = (true, ws)) ∧
    (∀ (lw : X11World) (ls : LinuxState), ls.initialized = true →
        linuxInitialize lw ls = (true, ls)) ∧
    (∀ (mw : MacWorld) (ms : MacState), ms.initialized = true →
        (macosInitialize mw ms).1 = true ∧
        (macosInitialize mw ms).2.initialized = true ∧
        (mw.axTrusted = true → macosInitialize mw ms = (true, ms))) := by
  refine ⟨?_, ?_, ?_⟩
  · intro ws hi
    cases ws with
    | mk i l => simp_all [winInitialize]
  · intro lw ls hi
    simp [linuxInitialize, hi]
  · intro mw ms hi
    refine ⟨?_, ?_, ?_⟩
    · by_cases ht : mw.axTrusted = false <;> simp [macosInitialize, ht]
    · by_cases ht : mw.axTrusted = false <;> simp [macosInitialize, ht]
    · intro htr
      cases ms with
      | mk i l => simp_all [macosInitialize, htr]

/-- Concrete instantiation of the C6 idempotence theorem on already
initialized states. -/
theorem c6_initializeIdempotent_witness :
    winInitialize { initialized := true, lastError := "" } =
      (true, { initialized := true, lastError := "" }) ∧
    linuxInitialize sampleX11World initLinuxState = (true, initLinuxState) ∧
    macosInitialize sampleMacWorld { initialized := true, lastError := "" } =
      (true, { initialized := true, lastError := "" }) :=
  ⟨c6_initializeIdempotent.1 _ rfl,
    c6_initializeIdempotent.2.1 sampleX11World initLinuxState rfl,
    (c6_initializeIdempotent.2.2 sampleMacWorld _ rfl).2.2 rfl⟩

/-! ## Claim C7 -/

/-- Claim C7: on the macOS backend, ShowWindow is defined as exactly
RestoreWindow and HideWindow as exactly MinimizeWindow: same return value and
the same accessibility-layer effect for every world, state and handle. -/
theorem c7_macosShowHide :
    ∀ (mw : MacWorld) (ms : MacState) (h : Nat),
      macosShowWindow mw ms h = macosRestoreWindow mw ms h ∧
      macosHideWindow mw ms h = macosMinimizeWindow mw ms h :=
  fun _ _ _ => ⟨rfl, rfl⟩

/-! ## Claim C8 -/

/-- Claim C8: on every backend, IsWindowVisible and IsValidWindow return false
- as total boolean functions, never an error - both when the backend is
uninitialized and when the handle fails the platform validity check. -/
theorem c8_predicates :
    (∀ (ww : WinWorld) (ws : WinState) (h : Nat), ws.initialized = false →
        winIsWindowVisible ww ws h = false ∧ winIsValidWindow ww ws h = false) ∧
    (∀ (ww : WinWorld) (ws : WinState) (h : Nat), ww.isWindow h = false →
        winIsWindowVisible ww ws h = false ∧ winIsValidWindow ww ws h = false) ∧
    (∀ (lw : X11World) (ls : LinuxState) (h : Nat), ls.initialized = false →
        linuxIsWindowVisible lw ls h = false ∧ linuxIsValidWindow lw ls h = false) ∧
    (∀ (lw : X11World) (ls : LinuxState) (h : Nat), lw.probeOk h = false →
        linuxIsWindowVisible lw ls h = false ∧ linuxIsValidWindow lw ls h = false) ∧
    (∀ (mw : MacWorld) (ms : MacState) (h : Nat), ms.initialized = false →
        macosIsWindowVisible mw ms h = false ∧ macosIsValidWindow mw ms h = false) ∧
    (∀ (mw : MacWorld) (ms : MacState) (h : Nat), mw.queryWindow h = none →
        macosIsWindowVisible mw ms h = false ∧ macosIsValidWindow mw ms h = false) := by
  refine ⟨?_, ?_, ?_, ?_, ?_, ?_⟩
  · intro ww ws h hni
    simp [winIsWindowVisible, winIsValidWindow, hni]
  · intro ww ws h hw
    constructor
    · cases hI : ws.initialized <;>
        simp [winIsWindowVisible, winNativeVisible, hI, hw]
    · cases hI : ws.initialized <;> simp [winIsValidWindow, hI, hw]
  · intro lw ls h hni
    simp [linuxIsWindowVisible, linuxIsValidWindow, hni]
  · intro lw ls h hv
    constructor
    · cases hI : ls.initialized <;>
        simp [linuxIsWindowVisible, linuxIsValidWindow, hI, hv]
    · cases hI : ls.initialized <;> simp [linuxIsValidWindow, hI, hv]
  · intro mw ms h hni
    simp [macosIsWindowVisible, macosIsValidWindow, Result.ok, macosGetWindowInfo,
      hni, errResult]
  · intro mw ms h hq
    cases hI : ms.initialized <;>
      simp [macosIsWindowVisible, macosIsValidWindow, Result.ok, macosGetWindowInfo,
        hI, hq, errResult]

/-- Concrete instantiation of the C8 theorem: one uninitialized and one
invalid-handle call of both predicates per backend. -/
theorem c8_predicates_witness :
    (winIsWindowVisible sampleWinWorld {} 7 = false ∧
      winIsValidWindow sampleWinWorld {} 7 = false) ∧
    (winIsWindowVisible sampleWinWorld { initialized := true } 3 = false ∧
      winIsValidWindow sampleWinWorld { initialized := true } 3 = false) ∧
    (linuxIsWindowVisible sampleX11World {} 5 = false ∧
      linuxIsValidWindow sampleX11World {} 5 = false) ∧
    (linuxIsWindowVisible sampleX11World initLinuxState 6 = false ∧
      linuxIsValidWindow sampleX11World initLinuxState 6 = false) ∧
    (macosIsWindowVisible sampleMacWorld {} 9 = false ∧
      macosIsValidWindow sampleMacWorld {} 9 = false) ∧
    (macosIsWindowVisible sampleMacWorld { initialized := true } 4 = false ∧
      macosIsValidWindow sampleMacWorld { initialized := true } 4 = false) :=
  ⟨c8_predicates.1 _ _ _ rfl,
    c8_predicates.2.1 _ _ _ (by decide),
    c8_predicates.2.2.1 _ _ _ rfl,
    c8_predicates.2.2.2.1 _ _ _ (by decide),
    c8_predicates.2.2.2.2.1 _ _ _ rfl,
    c8_predicates.2.2.2.2.2 _ _ _ (by decide)⟩

/-! ## Claim C9 -/

/-- Claim C9: macOS Initialize always returns true and leaves the backend
initialized, even when the accessibility trust check reports the process
untrusted; a failed check only stores the advisory message in the last-error
slot. -/
theorem c9_macosInitAlwaysSucceeds :
    ∀ (mw : MacWorld) (ms : MacState),
      (macosInitialize mw ms).1 = true ∧
      (macosInitialize mw ms).2.initialized = true ∧
      (mw.axTrusted = false → (macosInitialize mw ms).2.lastError = axAdvisoryMsg) := by
  intro mw ms
  by_cases ht : mw.axTrusted = false <;> simp [macosInitialize, ht]

/-- Concrete instantiation of the C9 theorem on the untrusted sample world. -/
theorem c9_macosInitAlwaysSucceeds_witness :
    (macosInitialize sampleMacWorldUntrusted {}).1 = true ∧
    (macosInitialize sampleMacWorldUntrusted {}).2.initialized = true ∧
    (macosInitialize sampleMacWorldUntrusted {}).2.lastError = axAdvisoryMsg :=
  ⟨(c9_macosInitAlwaysSucceeds sampleMacWorldUntrusted {}).1,
    (c9_macosInitAlwaysSucceeds sampleMacWorldUntrusted {}).2.1,
    (c9_macosInitAlwaysSucceeds sampleMacWorldUntrusted {}).2.2 rfl⟩

/-! ## Claim C10 -/

/-- Claim C10: on the X11 backend, when the backend is initialized and the
handle passes the validity probe but the geometry sub-query fails during
GetWindowInfo assembly, the call still returns Success, with the rect left at
its default zero values and isVisible left false. -/
theorem c10_linuxGeometryFailure :
    ∀ (lw : X11World) (ls : LinuxState) (h : Nat),
      ls.initialized = true → lw.probeOk h = true → lw.attrs h = none →
      (linuxGetWindowInfo lw ls h).error = ErrorCode.Success ∧
      (linuxGetWindowInfo lw ls h).value.rect = ({} : Rect) ∧
      (linuxGetWindowInfo lw ls h).value.isVisible = false := by
  intro lw ls h hi hp ha
  simp [linuxGetWindowInfo, linuxIsValidWindow, hi, hp, ha]

/-- Concrete instantiation of the C10 theorem: window 5 of the sample X11
world passes the validity probe while its geometry query fails. -/
theorem c10_linuxGeometryFailure_witness :
    (linuxGetWindowInfo sampleX11World initLinuxState 5).error = ErrorCode.Success ∧
    (linuxGetWindowInfo sampleX11World initLinuxState 5).value.rect = ({} : Rect) ∧
    (linuxGetWindowInfo sampleX11World initLinuxState 5).value.isVisible = false :=
  c10_linuxGeometryFailure sampleX11World initLinuxState 5 rfl (by decide) rfl

end CrossWindow
